import Mathlib

/-!
Verification of the HbA1c validation service (`hba1c_api.py`).

The repository source under consideration is the Flask transport layer
`hba1c_api.py`.  Request bodies are JSON objects; we embed the JSON values
the handlers build and inspect, and each route handler as a pure Lean
function from its (already parsed) request body to a `(body, status)`
response pair.  The clinical core (`hba1c_validation_model`:
`ClinicalDecisionSupport` and its three sub-models) is imported by the
transport layer but its source is not part of the visible repository, so
the definitions that stand for it are modelled from the specification and
say so in their doc comments; the handlers are parameterised over the core
functions they call, so theorems about the handlers alone quantify over
every possible behaviour of the core.
-/

/-- JSON values, as built and inspected by the handlers. -/
inductive Json where
  | null : Json
  | bool (b : Bool) : Json
  | num (q : ℚ) : Json
  | str (s : String) : Json
  | arr (xs : List Json) : Json
  | obj (kvs : List (String × Json)) : Json
deriving Repr

/-- A parsed JSON object body: an association list of keys to values
(Python dict in insertion order). -/
abbrev Record := List (String × Json)

/-- Key lookup inside a JSON object; `none` on any other JSON value,
mirroring that only dicts support key access. -/
def Json.lookup : Json → String → Option Json
  | .obj kvs, k => kvs.lookup k
  | _, _ => none

/-- A handler response: the serialised JSON body and the HTTP status code. -/
abbrev Response := Json × Nat

/-- The uniform failure body the handlers return:
`jsonify({'success': False, 'error': msg}), status`. -/
def errResp (msg : String) (status : Nat) : Response :=
  (Json.obj [("success", Json.bool false), ("error", Json.str msg)], status)

/-- Error taxonomy of the specification plus `other` for any unclassified
exception (a plain Python exception escaping the core). -/
inductive ExnKind where
  | invalidRecord : ExnKind
  | modelNotTrained : ExnKind
  | trainingFailed : ExnKind
  | other : ExnKind
deriving DecidableEq, Repr

/-- A raised exception: its class and its message.  The handlers only ever
serialise `str(e)`, i.e. the `msg` field. -/
structure Exn where
  kind : ExnKind
  msg : String
deriving Repr

/-- `required_fields` of `validate_hba1c` (line 145 of `hba1c_api.py`). -/
def required_fields : List String :=
  ["patient_id", "hba1c", "fasting_glucose", "haemoglobin"]

/-- `missing_fields` of `validate_hba1c` (line 146): the required fields,
in order, that are not keys of the record. -/
def missingFields (r : Record) : List String :=
  required_fields.filter (fun f => (r.lookup f).isNone)

/-- The assessment produced by `ClinicalDecisionSupport.assess_test_result`.
Modelled from the spec: an `AssessmentResult` carries (among sub-model
outputs, kept opaque in `details`) the final `test_validity.is_reliable`
boolean, which is the only part the transport layer reads (batch handler,
line 213). -/
structure AssessmentResult where
  is_reliable : Bool
  details : Json
deriving Repr

/-- Serialisation of an assessment into the response JSON, keeping the
`test_validity.is_reliable` path that `batch_validate` reads. -/
def AssessmentResult.toJson (a : AssessmentResult) : Json :=
  Json.obj [("test_validity", Json.obj [("is_reliable", Json.bool a.is_reliable)]),
            ("details", a.details)]

/-- `patient_data.get('patient_id', 'unknown')` as used by the sub-model
handlers and the batch error entries. -/
def getPatientId (r : Record) : Json :=
  (r.lookup "patient_id").getD (Json.str "unknown")

/-- Handler of `POST /api/validate-hba1c` (`validate_hba1c`, lines 136-156).
`body` is the parsed request body: `none` for a null body, `some r` for a
JSON object `r` (an empty object and a null body are both falsy in Python).
`assess` is `cds.assess_test_result`; raising is modelled by `Except.error`,
and the `except` clause serialises the message with status 500. -/
def validate_hba1c (assess : Record → Except Exn AssessmentResult)
    (body : Option Record) (now : String) : Response :=
  match body with
  | none => errResp "No patient data provided" 400
  | some pd =>
    if pd.isEmpty then errResp "No patient data provided" 400
    else
      let missing := missingFields pd
      if missing.isEmpty then
        match assess pd with
        | .ok a =>
          (Json.obj [("success", Json.bool true), ("timestamp", Json.str now),
                     ("assessment", a.toJson)], 200)
        | .error e => errResp e.msg 500
      else
        errResp ("Missing fields: " ++ String.intercalate ", " missing) 400

/-- Handler of `POST /api/detect-anomaly` (`detect_anomaly`, lines 161-168):
no field validation of its own, calls the anomaly detector directly and
serialises any exception with status 500. -/
def detect_anomaly (detect : Record → Except Exn Json) (pd : Record) : Response :=
  match detect pd with
  | .ok res =>
    (Json.obj [("success", Json.bool true), ("patient_id", getPatientId pd),
               ("anomaly_detection", res)], 200)
  | .error e => errResp e.msg 500

/-- Handler of `POST /api/predict-disorder` (`predict_disorder`,
lines 173-180). -/
def predict_disorder (predict : Record → Except Exn Json) (pd : Record) : Response :=
  match predict pd with
  | .ok res =>
    (Json.obj [("success", Json.bool true), ("patient_id", getPatientId pd),
               ("disorder_prediction", res)], 200)
  | .error e => errResp e.msg 500

/-- Handler of `POST /api/correct-hba1c` (`correct_hba1c`, lines 185-192). -/
def correct_hba1c (correct : Record → Except Exn Json) (pd : Record) : Response :=
  match correct pd with
  | .ok res =>
    (Json.obj [("success", Json.bool true), ("patient_id", getPatientId pd),
               ("correction", res)], 200)
  | .error e => errResp e.msg 500

/-- One entry of the batch `results` list (lines 206-211): a per-record
success entry with the assessment, or a per-record error entry. -/
def batchEntry (assess : Record → Except Exn AssessmentResult) (pd : Record) : Json :=
  match assess pd with
  | .ok a => Json.obj [("success", Json.bool true), ("assessment", a.toJson)]
  | .error e =>
    Json.obj [("success", Json.bool false), ("patient_id", getPatientId pd),
              ("error", Json.str e.msg)]

/-- Python truthiness of an optional JSON value as relevant to the batch
counter: `None`/absent is falsy, a boolean is itself. -/
def truthy : Option Json → Bool
  | some (.bool b) => b
  | _ => false

/-- The predicate of line 213: `r.get('success') and not
r['assessment']['test_validity']['is_reliable']`. -/
def entryUnreliable (j : Json) : Bool :=
  truthy (j.lookup "success")
    && !truthy ((j.lookup "assessment").bind fun a =>
        (a.lookup "test_validity").bind fun t => t.lookup "is_reliable")

/-- Handler of `POST /api/batch-validate` (`batch_validate`, lines 197-217),
given the extracted `patients` list (`data.get('patients', [])`); each
element is a patient record.  An empty list is falsy, hence rejected. -/
def batch_validate (assess : Record → Except Exn AssessmentResult)
    (patients : List Record) (now : String) : Response :=
  if patients.isEmpty then errResp "No patient data provided" 400
  else
    let results := patients.map (batchEntry assess)
    let unreliable := (results.filter entryUnreliable).length
    (Json.obj [("success", Json.bool true), ("timestamp", Json.str now),
               ("total_patients", Json.num patients.length),
               ("processed", Json.num results.length),
               ("unreliable_tests", Json.num unreliable),
               ("results", Json.arr results)], 200)

/-- The trained flags of the three sub-models owned by
`ClinicalDecisionSupport`, as read by `model_info` (`cds.X.is_trained`). -/
structure CDSState where
  anomaly_trained : Bool
  classifier_trained : Bool
  corrector_trained : Bool
deriving Repr

/-- Handler of `GET /api/model-info` (`model_info`, lines 222-245): an
unconditional success body built from the trained flags. -/
def model_info (st : CDSState) : Response :=
  (Json.obj
    [("success", Json.bool true),
     ("models", Json.obj
       [("anomaly_detector", Json.obj
          [("trained", Json.bool st.anomaly_trained),
           ("type", Json.str "Isolation Forest"),
           ("purpose", Json.str "Detect unreliable HbA1c results")]),
        ("disorder_classifier", Json.obj
          [("trained", Json.bool st.classifier_trained),
           ("type", Json.str "Random Forest Classifier"),
           ("purpose", Json.str "Classify blood disorders"),
           ("categories", Json.arr
             [Json.str "none", Json.str "iron_deficiency", Json.str "thalassemia",
              Json.str "sickle_cell", Json.str "g6pd"])]),
        ("hba1c_corrector", Json.obj
          [("trained", Json.bool st.corrector_trained),
           ("type", Json.str "Gradient Boosting Regressor"),
           ("purpose", Json.str "Predict corrected HbA1c values")])]),
     ("training_data_size", Json.num 1000)], 200)

/-- Training state of the process, modelled from the spec (section 5):
the tri-state readiness signal {not-ready, ready, failed(reason)}.  The
source handler reads no such state; the parameter records the state at
call time so that state-independence is expressible. -/
inductive TrainingState where
  | initializing : TrainingState
  | healthy : TrainingState
  | failed (reason : String) : TrainingState
deriving DecidableEq, Repr

/-- Handler of `GET /api/health` (`health_check`, lines 123-131): a fixed
body with `status: healthy` and `models_loaded: True`, built without
reading any training state (the `st` parameter is unused, exactly as the
source consults nothing). -/
def health_check (_st : TrainingState) (now : String) : Response :=
  (Json.obj [("status", Json.str "healthy"), ("timestamp", Json.str now),
             ("service", Json.str "HbA1c Validation API"),
             ("models_loaded", Json.bool true)], 200)

/-- Numeric value of a field of a record, when present and numeric. -/
def getNum (r : Record) (f : String) : Option ℚ :=
  match r.lookup f with
  | some (Json.num q) => some q
  | _ => none

/-- Modelled from the spec: the optional numeric fields of a
`PatientRecord` (section 3) with the population-typical default the
`FeatureVectorizer` substitutes when a field is absent (section 4.1; the
exact default values are unspecified, so representative clinical normals
are used). -/
def optionalDefaults : List (String × ℚ) :=
  [("random_glucose", 120), ("ogtt_2hr", 140), ("avg_glucose_cgm", 120),
   ("rbc_count", 24/5), ("mcv", 90), ("mch", 30), ("mchc", 34),
   ("reticulocyte_count", 6/5), ("wbc_count", 7), ("platelet_count", 250),
   ("serum_iron", 100), ("ferritin", 100), ("transferrin_saturation", 30),
   ("tibc", 300), ("bilirubin", 4/5), ("ldh", 200), ("haptoglobin", 100),
   ("age", 45), ("rbc_lifespan_days", 120)]

/-- Modelled from the spec: physically possible ranges for the required
numeric fields (section 4.1 gives the example hba1c ≤ 0 or > 20 as out of
range; companion bounds for the other two required numeric fields). -/
def requiredRanges : List (String × ℚ × ℚ) :=
  [("hba1c", 0, 20), ("fasting_glucose", 0, 1000), ("haemoglobin", 0, 25)]

/-- A present required numeric field that is non-numeric or outside its
physically possible range. -/
def badRequiredFields (r : Record) : List String :=
  (requiredRanges.filter (fun p =>
    match getNum r p.1 with
    | some v => decide (v ≤ p.2.1) || decide (p.2.2 < v)
    | none => true)).map Prod.fst

/-- The feature vector of a record: the three required numeric values
followed, for each optional numeric field, by its value (or the default)
and the missingness indicator bit, as section 3 (`FeatureVector`) and
section 4.1 describe. -/
def features (r : Record) : List ℚ :=
  [(getNum r "hba1c").getD 0, (getNum r "fasting_glucose").getD 0,
   (getNum r "haemoglobin").getD 0]
    ++ optionalDefaults.flatMap (fun p =>
      match getNum r p.1 with
      | some v => [v, 1]
      | none => [p.2, 0])

/-- Modelled from the spec: `FeatureVectorizer.vectorize` (section 4.1).
Never fails on missing optional fields; fails with `InvalidRecordError`
naming the specific fields (section 7) exactly when a required field is
missing, non-numeric, or out of physical range; otherwise returns the
feature vector. -/
def vectorize (r : Record) : Except Exn (List ℚ) :=
  let missing := missingFields r
  if missing.isEmpty then
    let bad := badRequiredFields r
    if bad.isEmpty then .ok (features r)
    else .error ⟨.invalidRecord,
      "Invalid required fields: " ++ String.intercalate ", " bad⟩
  else .error ⟨.invalidRecord, "Missing fields: " ++ String.intercalate ", " missing⟩

/-- A record satisfying the record contract: every required field present,
the required numeric fields numeric and in physical range.  This is
exactly the domain on which `vectorize` succeeds. -/
def validRecord (r : Record) : Prop :=
  missingFields r = [] ∧ badRequiredFields r = []

instance (r : Record) : Decidable (validRecord r) := by
  unfold validRecord; infer_instance

/-- Modelled from the spec: the anomaly threshold (a configuration value,
section 9 open question; the precise value is immaterial to the claims). -/
def anomalyThreshold : ℚ := 1/2

/-- Modelled from the spec: the minimum actionable disorder-confidence
threshold of the reconciliation rule (section 4.5). -/
def confidenceThreshold : ℚ := 7/10

/-- Modelled from the spec: the clinically insignificant bound on the
HbA1c correction delta (section 4.5 example: 0.3 percentage points). -/
def deltaBound : ℚ := 3/10

/-- Modelled from the spec: `AnomalyDetector.detect_anomaly` (section 4.3)
for a fitted model with scoring function `score`: vectorizes the record
first (so the record contract is enforced before any model computation),
then reports the score and the threshold comparison. -/
def detect_anomaly_model (score : List ℚ → ℚ) (r : Record) : Except Exn Json :=
  (vectorize r).map fun v =>
    Json.obj [("anomaly_score", Json.num (score v)),
              ("is_anomalous", Json.bool (decide (anomalyThreshold < score v)))]

/-- Modelled from the spec: `DisorderClassifier.predict_disorder`
(section 4.4) for a fitted model `classify` giving the predicted category
and its confidence. -/
def predict_disorder_model (classify : List ℚ → String × ℚ) (r : Record) :
    Except Exn Json :=
  (vectorize r).map fun v =>
    Json.obj [("predicted_category", Json.str (classify v).1),
              ("confidence", Json.num (classify v).2)]

/-- Modelled from the spec: `HbA1cCorrector.predict_corrected_hba1c`
(section 4.5) for a fitted regressor `correct`: reports the reported
value unchanged, the corrected value, and their delta. -/
def correct_hba1c_model (correct : List ℚ → ℚ) (r : Record) : Except Exn Json :=
  (vectorize r).map fun v =>
    Json.obj [("reported_hba1c", Json.num ((getNum r "hba1c").getD 0)),
              ("corrected_hba1c", Json.num (correct v)),
              ("delta", Json.num (correct v - (getNum r "hba1c").getD 0))]

/-- Modelled from the spec: the reconciliation rule of
`ClinicalDecisionSupport.assess_test_result` (section 4.5): reliable only
if the anomaly score is at most the threshold, the top category is none
or its confidence below the actionable minimum, and the correction delta
is within the clinically insignificant bound. -/
def reconcile (score : ℚ) (category : String) (confidence : ℚ)
    (reported corrected : ℚ) : Bool :=
  decide (score ≤ anomalyThreshold)
    && (category == "none" || decide (confidence < confidenceThreshold))
    && decide (|corrected - reported| ≤ deltaBound)

/-- Modelled from the spec: `ClinicalDecisionSupport.assess_test_result`
(section 4.6) after a completed `initialize_models` (in this process the
models are trained at startup, before the server accepts requests, lines
20-26 of the source): vectorizes once, runs the three fitted models
`score`, `classify`, `correct`, and reconciles their outputs; propagates
`InvalidRecordError` from the vectorizer unchanged. -/
def assess_test_result (score : List ℚ → ℚ) (classify : List ℚ → String × ℚ)
    (correct : List ℚ → ℚ) (r : Record) : Except Exn AssessmentResult :=
  match vectorize r with
  | .error e => .error e
  | .ok v =>
    let reported := (getNum r "hba1c").getD 0
    .ok ⟨reconcile (score v) (classify v).1 (classify v).2 reported (correct v),
      Json.obj [("anomaly_score", Json.num (score v)),
                ("predicted_category", Json.str (classify v).1),
                ("corrected_hba1c", Json.num (correct v))]⟩

/-- Whether a record will be counted as unreliable by the batch handler:
its assessment succeeded and reported `is_reliable = false`. -/
def unreliableSuccess (assess : Record → Except Exn AssessmentResult)
    (pd : Record) : Bool :=
  match assess pd with
  | .ok a => !a.is_reliable
  | .error _ => false

/-- A success response: body with `success: true` and status 200. -/
def isSuccessResp (r : Response) : Prop :=
  r.1.lookup "success" = some (Json.bool true) ∧ r.2 = 200

/-- The uniform failure shape of the transport layer: the body is exactly
`{success: false, error: msg}` for some message string, with status
400 (handler-side validation) or 500 (serialised exception).  No error
class beyond the message text survives serialisation. -/
def isBareErrorResp (r : Response) : Prop :=
  ∃ msg, r = errResp msg 400 ∨ r = errResp msg 500

/-- A concrete record satisfying the full record contract, used to witness
the theorems with hypotheses. -/
def recValid : Record :=
  [("patient_id", Json.str "P1"), ("hba1c", Json.num 7),
   ("fasting_glucose", Json.num 100), ("haemoglobin", Json.num 14)]

/-- A concrete record missing three of the four required fields. -/
def recMissing : Record := [("patient_id", Json.str "P1")]

lemma missingFields_nil_ne : missingFields ([] : Record) ≠ [] := by decide

lemma ne_nil_of_missingFields_eq_nil {r : Record} (h : missingFields r = []) :
    r ≠ [] := by
  intro he
  subst he
  exact missingFields_nil_ne h

lemma vectorize_ok {r : Record} (h1 : missingFields r = [])
    (h2 : badRequiredFields r = []) : vectorize r = .ok (features r) := by
  unfold vectorize
  simp [h1, h2]

lemma vectorize_missing {r : Record} (h : missingFields r ≠ []) :
    vectorize r = .error ⟨.invalidRecord,
      "Missing fields: " ++ String.intercalate ", " (missingFields r)⟩ := by
  unfold vectorize
  simp [List.isEmpty_iff, h]

lemma validate_hba1c_ok {assess : Record → Except Exn AssessmentResult}
    {pd : Record} {now : String} {a : AssessmentResult}
    (h1 : missingFields pd = []) (ha : assess pd = .ok a) :
    validate_hba1c assess (some pd) now
      = (Json.obj [("success", Json.bool true), ("timestamp", Json.str now),
                   ("assessment", a.toJson)], 200) := by
  have hne : pd ≠ [] := ne_nil_of_missingFields_eq_nil h1
  cases pd with
  | nil => exact absurd rfl hne
  | cons p ps =>
    unfold validate_hba1c
    simp [h1, ha]

/-- Claim C10: a request to the validate-hba1c handler whose body parses to
a null body or to the empty JSON object is answered with the error
response No patient data provided, HTTP status 400, identically for every
behaviour of the core, so before the required-field check and before any
model invocation. -/
theorem C10_empty_body_rejected
    (assess : Record → Except Exn AssessmentResult) (now : String) :
    validate_hba1c assess none now = errResp "No patient data provided" 400 ∧
    validate_hba1c assess (some []) now = errResp "No patient data provided" 400 :=
  ⟨rfl, rfl⟩

/-- Claim C1, counterexample to the claim as stated: the empty record is a
record missing every required field, yet the handler answers with the
message No patient data provided, which does not name the missing fields
(it differs from the message that names them). -/
theorem C1_counterexample :
    validate_hba1c (fun _ => .error ⟨.other, "unused"⟩) (some []) "t"
        = errResp "No patient data provided" 400 ∧
      "No patient data provided"
        ≠ "Missing fields: " ++ String.intercalate ", " (missingFields []) := by
  refine ⟨rfl, ?_⟩
  decide

/-- Claim C1 as amended: for every nonempty record missing one or more of
the required fields, the call fails with status 400 and an error message
naming exactly the missing fields, in required-field order, and the
assessment is not run (the response is the same for every behaviour of
`assess`). -/
theorem C1_missing_fields_rejected
    (assess : Record → Except Exn AssessmentResult) (pd : Record) (now : String)
    (hne : pd ≠ []) (hmiss : missingFields pd ≠ []) :
    validate_hba1c assess (some pd) now
      = errResp ("Missing fields: "
          ++ String.intercalate ", " (missingFields pd)) 400 := by
  cases pd with
  | nil => exact absurd rfl hne
  | cons p ps =>
    unfold validate_hba1c
    simp [List.isEmpty_iff, hmiss]

/-- Witness for C1: a record carrying only `patient_id` is rejected with
the message naming the three absent required fields. -/
theorem C1_missing_fields_rejected_witness :
    validate_hba1c (fun _ => .error ⟨.other, "unused"⟩) (some recMissing) "t"
      = errResp ("Missing fields: "
          ++ String.intercalate ", " (missingFields recMissing)) 400 :=
  C1_missing_fields_rejected _ recMissing "t" (List.cons_ne_nil _ _) (by decide)

/-- Claim C2: for every record in which all four required fields are
present and the numeric ones are numeric and in physical range (so only
optional fields may be absent), the assessment succeeds: the spec-modelled
`assess_test_result` returns a result rather than an InvalidRecordError,
the handler returns the success response carrying it, and the
missing-field rejection branch is unreachable (`missingFields pd = []`),
whatever the three fitted models compute. -/
theorem C2_valid_record_succeeds
    (score : List ℚ → ℚ) (classify : List ℚ → String × ℚ) (correct : List ℚ → ℚ)
    (pd : Record) (now : String) (h : validRecord pd) :
    missingFields pd = [] ∧
    ∃ a : AssessmentResult,
      assess_test_result score classify correct pd = .ok a ∧
      validate_hba1c (assess_test_result score classify correct) (some pd) now
        = (Json.obj [("success", Json.bool true), ("timestamp", Json.str now),
                     ("assessment", a.toJson)], 200) := by
  obtain ⟨h1, h2⟩ := h
  have hv := vectorize_ok h1 h2
  have ha : assess_test_result score classify correct pd
      = .ok ⟨reconcile (score (features pd)) (classify (features pd)).1
            (classify (features pd)).2 ((getNum pd "hba1c").getD 0)
            (correct (features pd)),
          Json.obj [("anomaly_score", Json.num (score (features pd))),
                    ("predicted_category", Json.str (classify (features pd)).1),
                    ("corrected_hba1c", Json.num (correct (features pd)))]⟩ := by
    unfold assess_test_result
    rw [hv]
  exact ⟨h1, _, ha, validate_hba1c_ok h1 ha⟩

/-- Witness for C2: a concrete record with exactly the four required
fields, assessed under concrete fitted models. -/
theorem C2_valid_record_succeeds_witness :
    missingFields recValid = [] ∧
    ∃ a : AssessmentResult,
      assess_test_result (fun _ => 0) (fun _ => ("none", 1)) (fun _ => 7)
          recValid = .ok a ∧
      validate_hba1c
          (assess_test_result (fun _ => 0) (fun _ => ("none", 1)) (fun _ => 7))
          (some recValid) "t"
        = (Json.obj [("success", Json.bool true), ("timestamp", Json.str "t"),
                     ("assessment", a.toJson)], 200) :=
  C2_valid_record_succeeds _ _ _ recValid "t" (by decide)

lemma entryUnreliable_batchEntry (assess : Record → Except Exn AssessmentResult)
    (pd : Record) :
    entryUnreliable (batchEntry assess pd) = unreliableSuccess assess pd := by
  unfold batchEntry unreliableSuccess
  cases assess pd with
  | ok a => rfl
  | error e => rfl

lemma batch_count (assess : Record → Except Exn AssessmentResult)
    (patients : List Record) :
    ((patients.map (batchEntry assess)).filter entryUnreliable).length
      = (patients.filter (unreliableSuccess assess)).length := by
  rw [List.filter_map, List.length_map]
  congr 1
  apply List.filter_congr
  intro x _
  exact entryUnreliable_batchEntry assess x

/-- Claim C3: for every non-empty batch and every behaviour of the core,
the batch handler returns a success response whose results list has one
entry per record: a per-record success entry when the assessment
succeeded, a per-record error entry when it raised (so a failing record
never aborts the batch), and the unreliable_tests counter counts, among
the successful entries only, those whose assessment is not reliable. -/
theorem C3_batch_isolation (assess : Record → Except Exn AssessmentResult)
    (patients : List Record) (now : String) (h : patients ≠ []) :
    isSuccessResp (batch_validate assess patients now) ∧
    (batch_validate assess patients now).1.lookup "results"
      = some (Json.arr (patients.map (batchEntry assess))) ∧
    (∀ pd ∈ patients,
      (∃ a, assess pd = .ok a ∧ batchEntry assess pd
          = Json.obj [("success", Json.bool true), ("assessment", a.toJson)]) ∨
      (∃ e, assess pd = .error e ∧ batchEntry assess pd
          = Json.obj [("success", Json.bool false),
                      ("patient_id", getPatientId pd),
                      ("error", Json.str e.msg)])) ∧
    (batch_validate assess patients now).1.lookup "unreliable_tests"
      = some (Json.num ((patients.filter (unreliableSuccess assess)).length : ℚ)) := by
  cases patients with
  | nil => exact absurd rfl h
  | cons p ps =>
    refine ⟨⟨rfl, rfl⟩, rfl, ?_, ?_⟩
    · intro pd _
      cases hA : assess pd with
      | ok a => exact .inl ⟨a, rfl, by unfold batchEntry; rw [hA]⟩
      | error e => exact .inr ⟨e, rfl, by unfold batchEntry; rw [hA]⟩
    · calc (batch_validate assess (p :: ps) now).1.lookup "unreliable_tests"
          = some (Json.num ((((p :: ps).map (batchEntry assess)).filter
              entryUnreliable).length : ℚ)) := rfl
        _ = some (Json.num (((p :: ps).filter
              (unreliableSuccess assess)).length : ℚ)) := by
            rw [batch_count assess (p :: ps)]

/-- Witness for C3: a two-record batch in which the assessment succeeds
unreliably on the first record and raises on the second. -/
theorem C3_batch_isolation_witness :
    (batch_validate
        (fun r => if (r.lookup "hba1c").isNone
          then Except.error ⟨.invalidRecord, "Missing fields: hba1c"⟩
          else Except.ok ⟨false, Json.null⟩)
        [recValid, recMissing] "t").1.lookup "unreliable_tests"
      = some (Json.num (([recValid, recMissing].filter
          (unreliableSuccess (fun r => if (r.lookup "hba1c").isNone
            then Except.error ⟨.invalidRecord, "Missing fields: hba1c"⟩
            else Except.ok ⟨false, Json.null⟩))).length : ℚ)) :=
  (C3_batch_isolation _ _ "t" (List.cons_ne_nil _ _)).2.2.2

/-- Claim C4: for every non-empty batch the returned counters satisfy
processed = total_patients = the number of submitted records and
unreliable_tests ≤ processed. -/
theorem C4_batch_counters (assess : Record → Except Exn AssessmentResult)
    (patients : List Record) (now : String) (h : patients ≠ []) :
    ∃ n u : ℕ,
      (batch_validate assess patients now).1.lookup "processed"
        = some (Json.num n) ∧
      (batch_validate assess patients now).1.lookup "total_patients"
        = some (Json.num n) ∧
      (batch_validate assess patients now).1.lookup "unreliable_tests"
        = some (Json.num u) ∧
      u ≤ n ∧ n = patients.length := by
  cases patients with
  | nil => exact absurd rfl h
  | cons p ps =>
    refine ⟨(p :: ps).length,
      (((p :: ps).map (batchEntry assess)).filter entryUnreliable).length,
      ?_, rfl, rfl, ?_, rfl⟩
    · calc (batch_validate assess (p :: ps) now).1.lookup "processed"
          = some (Json.num (((p :: ps).map (batchEntry assess)).length : ℚ)) := rfl
        _ = some (Json.num ((p :: ps).length : ℚ)) := by rw [List.length_map]
    · exact le_trans (List.length_filter_le _ _) (le_of_eq (by rw [List.length_map]))

/-- Witness for C4: the counters of a concrete singleton batch. -/
theorem C4_batch_counters_witness :
    ∃ n u : ℕ,
      (batch_validate (fun _ => Except.ok ⟨true, Json.null⟩) [recValid] "t").1.lookup
          "processed" = some (Json.num n) ∧
      (batch_validate (fun _ => Except.ok ⟨true, Json.null⟩) [recValid] "t").1.lookup
          "total_patients" = some (Json.num n) ∧
      (batch_validate (fun _ => Except.ok ⟨true, Json.null⟩) [recValid] "t").1.lookup
          "unreliable_tests" = some (Json.num u) ∧
      u ≤ n ∧ n = [recValid].length :=
  C4_batch_counters _ [recValid] "t" (List.cons_ne_nil _ _)

/-- Claim C5: a batch request whose patients list is empty is rejected
with the descriptive error No patient data provided and status 400, and a
success response always reports at least one processed record. -/
theorem C5_empty_batch_rejected :
    (∀ (assess : Record → Except Exn AssessmentResult) (now : String),
      batch_validate assess [] now = errResp "No patient data provided" 400) ∧
    (∀ (assess : Record → Except Exn AssessmentResult)
        (patients : List Record) (now : String),
      (batch_validate assess patients now).1.lookup "success"
          = some (Json.bool true) →
      ∃ n : ℕ, (batch_validate assess patients now).1.lookup "processed"
          = some (Json.num n) ∧ 1 ≤ n) := by
  refine ⟨fun assess now => rfl, fun assess patients now hs => ?_⟩
  cases patients with
  | nil =>
    have h2 : some (Json.bool false) = some (Json.bool true) := hs
    simp at h2
  | cons p ps =>
    refine ⟨(p :: ps).length, ?_, Nat.succ_le_succ (Nat.zero_le _)⟩
    calc (batch_validate assess (p :: ps) now).1.lookup "processed"
        = some (Json.num (((p :: ps).map (batchEntry assess)).length : ℚ)) := rfl
      _ = some (Json.num ((p :: ps).length : ℚ)) := by rw [List.length_map]

/-- Witness for C5: the success branch of the claim applied to a concrete
singleton batch. -/
theorem C5_empty_batch_rejected_witness :
    ∃ n : ℕ, (batch_validate (fun _ => Except.ok ⟨true, Json.null⟩)
        [recValid] "t").1.lookup "processed" = some (Json.num n) ∧ 1 ≤ n :=
  C5_empty_batch_rejected.2 _ [recValid] "t" rfl

/-- Claim C6, counterexample to the claim as stated: with every trained
flag still false (training not yet complete), model_info returns a
success response (success true, status 200) reporting the untrained
anomaly detector, not a not-ready error. -/
theorem C6_counterexample :
    (model_info ⟨false, false, false⟩).1.lookup "success"
        = some (Json.bool true) ∧
    (model_info ⟨false, false, false⟩).2 = 200 ∧
    (((model_info ⟨false, false, false⟩).1.lookup "models").bind
        (fun m => (m.lookup "anomaly_detector").bind
          (fun d => d.lookup "trained")))
      = some (Json.bool false) :=
  ⟨rfl, rfl, rfl⟩

/-- Claim C6 as amended: model_info always returns a success response
carrying each model's trained flag, each model's kind, and the fixed
classifier category list, whatever the training state; there is no
not-ready error path. -/
theorem C6_model_info_fields (st : CDSState) :
    isSuccessResp (model_info st) ∧
    (((model_info st).1.lookup "models").bind
        (fun m => (m.lookup "anomaly_detector").bind (fun d => d.lookup "trained")))
      = some (Json.bool st.anomaly_trained) ∧
    (((model_info st).1.lookup "models").bind
        (fun m => (m.lookup "disorder_classifier").bind (fun d => d.lookup "trained")))
      = some (Json.bool st.classifier_trained) ∧
    (((model_info st).1.lookup "models").bind
        (fun m => (m.lookup "hba1c_corrector").bind (fun d => d.lookup "trained")))
      = some (Json.bool st.corrector_trained) ∧
    (((model_info st).1.lookup "models").bind
        (fun m => (m.lookup "anomaly_detector").bind (fun d => d.lookup "type")))
      = some (Json.str "Isolation Forest") ∧
    (((model_info st).1.lookup "models").bind
        (fun m => (m.lookup "disorder_classifier").bind (fun d => d.lookup "type")))
      = some (Json.str "Random Forest Classifier") ∧
    (((model_info st).1.lookup "models").bind
        (fun m => (m.lookup "hba1c_corrector").bind (fun d => d.lookup "type")))
      = some (Json.str "Gradient Boosting Regressor") ∧
    (((model_info st).1.lookup "models").bind
        (fun m => (m.lookup "disorder_classifier").bind (fun d => d.lookup "categories")))
      = some (Json.arr [Json.str "none", Json.str "iron_deficiency",
          Json.str "thalassemia", Json.str "sickle_cell", Json.str "g6pd"]) :=
  ⟨⟨rfl, rfl⟩, rfl, rfl, rfl, rfl, rfl, rfl, rfl⟩

/-- Claim C7, counterexample to the claim as stated: called in the
initializing state the health check still reports healthy, and a failed
state produces a response identical to the healthy state, so the failure
reason is never reported. -/
theorem C7_counterexample :
    (health_check .initializing "t").1.lookup "status"
        = some (Json.str "healthy") ∧
    Json.str "healthy" ≠ Json.str "initializing" ∧
    health_check (.failed "training crashed") "t" = health_check .healthy "t" ∧
    TrainingState.failed "training crashed" ≠ TrainingState.healthy := by
  refine ⟨rfl, ?_, rfl, by decide⟩
  intro hh
  injection hh with hs
  exact absurd hs (by decide)

/-- Claim C7 as amended: the health check always answers status healthy
with models_loaded true and status code 200, independently of the
training state (in this process the models are trained synchronously
before the server starts, so no initializing or failed state is ever
reported). -/
theorem C7_health_check_static (st st' : TrainingState) (now : String) :
    health_check st now = health_check st' now ∧
    (health_check st now).1.lookup "status" = some (Json.str "healthy") ∧
    (health_check st now).1.lookup "models_loaded" = some (Json.bool true) ∧
    (health_check st now).2 = 200 :=
  ⟨rfl, rfl, rfl, rfl⟩

/-- Claim C8, counterexample to the claim as stated: an unclassified
exception (kind `other`, a plain Python exception) escaping the core is
serialised verbatim as the bare message boom, and the response is
indistinguishable from the one produced by a classified
ModelNotTrainedError with the same message: the returned error determines
no taxonomy kind. -/
theorem C8_counterexample :
    detect_anomaly (fun _ => Except.error ⟨.other, "boom"⟩) recValid
        = errResp "boom" 500 ∧
    detect_anomaly (fun _ => Except.error ⟨.modelNotTrained, "boom"⟩) recValid
        = detect_anomaly (fun _ => Except.error ⟨.other, "boom"⟩) recValid ∧
    ExnKind.other ≠ ExnKind.modelNotTrained :=
  ⟨rfl, rfl, by decide⟩

lemma validate_hba1c_err {assess : Record → Except Exn AssessmentResult}
    {pd : Record} {now : String} {e : Exn}
    (h1 : missingFields pd = []) (ha : assess pd = .error e) :
    validate_hba1c assess (some pd) now = errResp e.msg 500 := by
  have hne : pd ≠ [] := ne_nil_of_missingFields_eq_nil h1
  cases pd with
  | nil => exact absurd rfl hne
  | cons p ps =>
    unfold validate_hba1c
    simp [h1, ha]

lemma validate_hba1c_missing {assess : Record → Except Exn AssessmentResult}
    {pd : Record} {now : String} (hne : pd ≠ []) (hm : missingFields pd ≠ []) :
    validate_hba1c assess (some pd) now
      = errResp ("Missing fields: "
          ++ String.intercalate ", " (missingFields pd)) 400 := by
  cases pd with
  | nil => exact absurd rfl hne
  | cons p ps =>
    unfold validate_hba1c
    simp [List.isEmpty_iff, hm]

/-- Claim C8 as amended: no error is silently swallowed, but the only
classification that survives is the message text: every response of every
failure-capable endpoint is either a success response or the uniform bare
body with success false and the error message, status 400 or 500. -/
theorem C8_uniform_error_shape :
    (∀ (assess : Record → Except Exn AssessmentResult) (body : Option Record)
        (now : String),
      isSuccessResp (validate_hba1c assess body now)
        ∨ isBareErrorResp (validate_hba1c assess body now)) ∧
    (∀ (op : Record → Except Exn Json) (pd : Record),
      isSuccessResp (detect_anomaly op pd) ∨ isBareErrorResp (detect_anomaly op pd)) ∧
    (∀ (op : Record → Except Exn Json) (pd : Record),
      isSuccessResp (predict_disorder op pd)
        ∨ isBareErrorResp (predict_disorder op pd)) ∧
    (∀ (op : Record → Except Exn Json) (pd : Record),
      isSuccessResp (correct_hba1c op pd) ∨ isBareErrorResp (correct_hba1c op pd)) ∧
    (∀ (assess : Record → Except Exn AssessmentResult)
        (patients : List Record) (now : String),
      isSuccessResp (batch_validate assess patients now)
        ∨ isBareErrorResp (batch_validate assess patients now)) := by
  refine ⟨?_, ?_, ?_, ?_, ?_⟩
  · intro assess body now
    rcases body with _ | pd
    · exact .inr ⟨"No patient data provided", .inl rfl⟩
    · rcases eq_or_ne pd [] with rfl | hne
      · exact .inr ⟨"No patient data provided", .inl rfl⟩
      · rcases eq_or_ne (missingFields pd) [] with hm | hm
        · cases hA : assess pd with
          | ok a =>
            exact .inl ⟨by rw [validate_hba1c_ok hm hA]; rfl,
              by rw [validate_hba1c_ok hm hA]⟩
          | error e => exact .inr ⟨e.msg, .inr (validate_hba1c_err hm hA)⟩
        · exact .inr ⟨"Missing fields: "
            ++ String.intercalate ", " (missingFields pd),
            .inl (validate_hba1c_missing hne hm)⟩
  · intro op pd
    unfold detect_anomaly
    split
    · exact .inl ⟨rfl, rfl⟩
    · exact .inr ⟨_, .inr rfl⟩
  · intro op pd
    unfold predict_disorder
    split
    · exact .inl ⟨rfl, rfl⟩
    · exact .inr ⟨_, .inr rfl⟩
  · intro op pd
    unfold correct_hba1c
    split
    · exact .inl ⟨rfl, rfl⟩
    · exact .inr ⟨_, .inr rfl⟩
  · intro assess patients now
    unfold batch_validate
    split
    · exact .inr ⟨_, .inl rfl⟩
    · exact .inl ⟨rfl, rfl⟩

/-- Claim C9: the spec-modelled sub-models vectorize first, so a record
missing required fields makes each of the three sub-model endpoints fail
with status 500 and the error naming the missing fields, whatever the
fitted models would have computed (the model computation is never
reached). -/
theorem C9_sub_model_record_contract
    (score : List ℚ → ℚ) (classify : List ℚ → String × ℚ) (correct : List ℚ → ℚ)
    (pd : Record) (h : missingFields pd ≠ []) :
    detect_anomaly (detect_anomaly_model score) pd
      = errResp ("Missing fields: "
          ++ String.intercalate ", " (missingFields pd)) 500 ∧
    predict_disorder (predict_disorder_model classify) pd
      = errResp ("Missing fields: "
          ++ String.intercalate ", " (missingFields pd)) 500 ∧
    correct_hba1c (correct_hba1c_model correct) pd
      = errResp ("Missing fields: "
          ++ String.intercalate ", " (missingFields pd)) 500 := by
  have hv := vectorize_missing h
  refine ⟨?_, ?_, ?_⟩
  · unfold detect_anomaly detect_anomaly_model
    rw [hv]
    rfl
  · unfold predict_disorder predict_disorder_model
    rw [hv]
    rfl
  · unfold correct_hba1c correct_hba1c_model
    rw [hv]
    rfl

/-- Witness for C9: the record carrying only patient_id is rejected by all
three sub-model endpoints with the message naming the absent fields. -/
theorem C9_sub_model_record_contract_witness :
    detect_anomaly (detect_anomaly_model (fun _ => 0)) recMissing
      = errResp ("Missing fields: "
          ++ String.intercalate ", " (missingFields recMissing)) 500 ∧
    predict_disorder (predict_disorder_model (fun _ => ("none", 1))) recMissing
      = errResp ("Missing fields: "
          ++ String.intercalate ", " (missingFields recMissing)) 500 ∧
    correct_hba1c (correct_hba1c_model (fun _ => 7)) recMissing
      = errResp ("Missing fields: "
          ++ String.intercalate ", " (missingFields recMissing)) 500 :=
  C9_sub_model_record_contract _ _ _ recMissing (by decide)
